import Mathlib

/-!
Shallow embedding of `hack/heartbeat_account.py` from
kubernetes-sigs/cluster-api-provider-gcp.

The script reads two environment variables (`BOSKOS_HOST` with default
`"boskos"`, and the required `BOSKOS_RESOURCE_NAME`), then runs
`while count < 180:` where each pass opens a fresh HTTP connection, POSTs
to `/update?name=...&state=busy&owner=cluster-api-provider-gcp`, checks
the response status, exits fatally on a non-200 status, and otherwise
closes the connection and sleeps 60 seconds.

A crucial point of the source: the variable `count` occurs exactly twice,
in its initialization `count = 0` and in the loop guard
`while count < 180:` — the loop body never increments it.  The guard
therefore observes 0 on every pass, so as long as the responses are 200
the loop never terminates.  The embedding is faithful to this: the loop
is modelled with an explicit fuel bound (the number of guard evaluations
we are willing to unroll), the continuation after a successful pass keeps
`count` unchanged, and an execution that is still inside the loop when
the fuel runs out is reported as `LoopOutcome.running` — divergence shows
up as being `running` for every fuel.

The environment is a partial map `String → Option String` and the network
an oracle `Nat → HTTPResponse` giving the response to the i-th send
(0-indexed by the number of sends performed so far).  The observable
behaviour is a trace of events (connection opens, requests, closes,
sleeps), the successive values of `count` at each guard check, and, when
the process actually terminates, its exit status.
-/

/-- UTF-8 byte sequence of a character, as used by Python `quote_plus`
when percent-encoding non-safe characters. -/
def utf8BytesOfChar (c : Char) : List Nat :=
  let n := c.toNat
  if n < 0x80 then [n]
  else if n < 0x800 then [0xC0 + n / 0x40, 0x80 + n % 0x40]
  else if n < 0x10000 then
    [0xE0 + n / 0x1000, 0x80 + n / 0x40 % 0x40, 0x80 + n % 0x40]
  else
    [0xF0 + n / 0x40000, 0x80 + n / 0x1000 % 0x40, 0x80 + n / 0x40 % 0x40,
     0x80 + n % 0x40]

/-- Uppercase hexadecimal digit, as produced by Python percent-encoding. -/
def hexDigitUpper (n : Nat) : Char :=
  if n < 10 then Char.ofNat (48 + n) else Char.ofNat (55 + n)

/-- Percent-encoding of one byte: `%XX` with uppercase hex digits. -/
def percentEncodeByte (b : Nat) : List Char :=
  ['%', hexDigitUpper (b / 16), hexDigitUpper (b % 16)]

/-- Characters Python `urllib.parse.quote_plus` leaves unchanged:
ASCII letters, digits, and `_ . - ~`. -/
def alwaysSafe (c : Char) : Bool :=
  c.isAlphanum || c = '_' || c = '.' || c = '-' || c = '~'

/-- Python `urllib.parse.quote_plus`: safe characters kept, space becomes
`+`, every other character is percent-encoded byte by byte (UTF-8). -/
def quote_plus (s : String) : String :=
  String.mk (s.data.flatMap fun c =>
    if alwaysSafe c then [c]
    else if c = ' ' then ['+']
    else (utf8BytesOfChar c).flatMap percentEncodeByte)

/-- Python `urllib.parse.urlencode` on an (ordered) association list:
`k1=v1&k2=v2&...` with keys and values passed through `quote_plus`. -/
def urlencode (query : List (String × String)) : String :=
  String.intercalate "&" (query.map fun kv => quote_plus kv.1 ++ "=" ++ quote_plus kv.2)

/-- The compiled-in client identity (`USER` in the script). -/
def USER : String := "cluster-api-provider-gcp"

/-- `BOSKOS_HOST = os.environ.get("BOSKOS_HOST", "boskos")`. -/
def BOSKOS_HOST (env : String → Option String) : String :=
  (env "BOSKOS_HOST").getD "boskos"

/-- The query parameters of a heartbeat, in the insertion order of the
Python dict literal: `name`, `state` (always `busy`), `owner`. -/
def heartbeatParams (res : String) : List (String × String) :=
  [("name", res), ("state", "busy"), ("owner", USER)]

/-- The request target of every send:
`"/update?%s" % urlencode({...})`. -/
def requestPath (res : String) : String :=
  "/update?" ++ urlencode (heartbeatParams res)

/-- The parts of an HTTP response the script inspects: `resp.status`,
`resp.reason`, and the `repr` of the response object used by `%r`. -/
structure HTTPResponse where
  status : Nat
  reason : String
  reprStr : String
deriving DecidableEq

/-- The fatal diagnostic passed to `sys.exit` on a non-200 response:
`"boskos: heartbeat_account: Got invalid response while sending heartbeat:
%d: %s, %r" % (resp.status, resp.reason, resp)`. -/
def heartbeatErrMsg (resp : HTTPResponse) : String :=
  "boskos: heartbeat_account: Got invalid response while sending heartbeat: "
    ++ toString resp.status ++ ": " ++ resp.reason ++ ", " ++ resp.reprStr

/-- Observable events of a run: opening a connection to a host, issuing a
request, closing the connection, sleeping. -/
inductive Event where
  | openConn (host : String)
  | request (method : String) (path : String)
  | close
  | sleep (secs : Nat)
deriving DecidableEq

/-- Exit status of the process: `success` models exit code 0 (falling off
the end of the script), `failure msg` models `sys.exit(msg)` (exit code 1
with `msg` printed to stderr). -/
inductive ExitStat where
  | success
  | failure (msg : String)
deriving DecidableEq

/-- Result of a loop execution that actually terminated: the event trace,
the successive values of `count` observed at each `while count < 180`
guard check, and the exit status. -/
structure LoopRun where
  trace : List Event
  counters : List Nat
  exit : ExitStat
deriving DecidableEq

/-- Outcome of unrolling the loop a bounded number of times:
`finished r` when the process terminated within the allotted fuel, and
`running trace counters` when the fuel ran out while the loop was still
going (the events and guard observations performed so far are kept).  A
loop that is `running` for every fuel value never terminates. -/
inductive LoopOutcome where
  | finished (r : LoopRun)
  | running (trace : List Event) (counters : List Nat)
deriving DecidableEq

/-- The events of one successful loop iteration, in order: open a fresh
connection, send the POST, close the connection, sleep 60 seconds. -/
def successBlock (host res : String) : List Event :=
  [.openConn host, .request "POST" (requestPath res), .close, .sleep 60]

/-- The events of a failing loop iteration: the connection is opened and
the POST sent, then the process exits without closing or sleeping. -/
def failBlock (host res : String) : List Event :=
  [.openConn host, .request "POST" (requestPath res)]

/-- Prepend one successful iteration (open, send, close, sleep 60, with
`count` observed at the guard) in front of the outcome of the remaining
execution. -/
def consIter (host res : String) (count : Nat) : LoopOutcome → LoopOutcome
  | .finished r =>
      .finished { trace := .openConn host :: .request "POST" (requestPath res) ::
                    .close :: .sleep 60 :: r.trace,
                  counters := count :: r.counters,
                  exit := r.exit }
  | .running tr cs =>
      .running (.openConn host :: .request "POST" (requestPath res) ::
        .close :: .sleep 60 :: tr) (count :: cs)

/-- The `while count < 180` loop of the script, unrolled for at most
`fuel` guard evaluations.  `iter` indexes the response oracle (the number
of sends performed before this pass); `count` is the program variable.
Each pass whose guard holds opens a connection to `host`, POSTs to
`requestPath res`, and reads the oracle response; a non-200 status exits
fatally at once (no close, no sleep), otherwise the connection is closed,
the process sleeps 60 seconds, and the loop continues.  Faithful to the
source, the continuation passes `count` UNCHANGED: the script never
increments `count` (its only occurrences are `count = 0` and the guard),
so the loop can only ever finish through a failing response. -/
def loopFuel (host res : String) (resps : Nat → HTTPResponse) :
    Nat → Nat → Nat → LoopOutcome
  | 0, _, _ => .running [] []
  | fuel + 1, iter, count =>
    if count < 180 then
      let resp := resps iter
      if resp.status ≠ 200 then
        .finished { trace := [.openConn host, .request "POST" (requestPath res)],
                    counters := [count],
                    exit := .failure (heartbeatErrMsg resp) }
      else
        consIter host res count (loopFuel host res resps fuel (iter + 1) count)
    else .finished { trace := [], counters := [count], exit := .success }

/-- Result of the whole process: `startupError` models the uncaught
`KeyError` raised by `os.environ['BOSKOS_RESOURCE_NAME']` before the loop
is ever entered; `run` carries the loop's outcome under the given fuel. -/
inductive ProgResult where
  | startupError
  | run (o : LoopOutcome)
deriving DecidableEq

/-- The whole script, observed for at most `fuel` loop-guard evaluations:
resolve `BOSKOS_HOST` (with default), then the required
`BOSKOS_RESOURCE_NAME` (fatal if absent), then run the loop with
`count = 0` and no sends performed yet. -/
def program (env : String → Option String) (resps : Nat → HTTPResponse)
    (fuel : Nat) : ProgResult :=
  let host := BOSKOS_HOST env
  match env "BOSKOS_RESOURCE_NAME" with
  | none => .startupError
  | some res => .run (loopFuel host res resps fuel 0 0)

/-- Events performed so far by a loop outcome. -/
def outcomeTrace : LoopOutcome → List Event
  | .finished r => r.trace
  | .running tr _ => tr

/-- Guard observations of `count` performed so far by a loop outcome. -/
def outcomeCounters : LoopOutcome → List Nat
  | .finished r => r.counters
  | .running _ cs => cs

/-- Exit status of a loop outcome; `none` while the loop is still
running. -/
def outcomeExit : LoopOutcome → Option ExitStat
  | .finished r => some r.exit
  | .running _ _ => none

/-- Event trace of a process run (empty when startup failed). -/
def progTrace : ProgResult → List Event
  | .startupError => []
  | .run o => outcomeTrace o

/-- Counter values observed during a process run. -/
def progCounters : ProgResult → List Nat
  | .startupError => []
  | .run o => outcomeCounters o

/-- Exit status of a process run; `none` when the startup `KeyError`
terminated the process before the loop, or when the loop is still
running. -/
def progExit : ProgResult → Option ExitStat
  | .startupError => none
  | .run o => outcomeExit o

/-- Whether an event is a request (a send attempt). -/
def isRequestEv : Event → Bool
  | .request _ _ => true
  | _ => false

/-- Whether an event opens a connection. -/
def isOpenEv : Event → Bool
  | .openConn _ => true
  | _ => false

/-- Whether an event closes a connection. -/
def isCloseEv : Event → Bool
  | .close => true
  | _ => false

/-- Whether an event is a sleep. -/
def isSleepEv : Event → Bool
  | .sleep _ => true
  | _ => false

/-- Number of send attempts in a trace. -/
def countSends (tr : List Event) : Nat := tr.countP isRequestEv

/-- Number of connection opens in a trace. -/
def countOpens (tr : List Event) : Nat := tr.countP isOpenEv

/-- Number of connection closes in a trace. -/
def countCloses (tr : List Event) : Nat := tr.countP isCloseEv

/-- Number of sleeps in a trace. -/
def countSleeps (tr : List Event) : Nat := tr.countP isSleepEv

/-- Number of send attempts of a whole process run. -/
def progSends (p : ProgResult) : Nat := countSends (progTrace p)

/-- Number of consecutive 200 responses at the start of the oracle, capped
at `fuel`: the number of fully successful iterations performed within
`fuel` unrolled passes. -/
def successIters (resps : Nat → HTTPResponse) (fuel : Nat) : Nat :=
  ((List.range fuel).takeWhile fun i => (resps i).status == 200).length

/-- The events after the last complete successful iteration within `fuel`
passes: empty when all of them succeed (loop still running), otherwise the
open and send of the failing iteration. -/
def failTail (host res : String) (resps : Nat → HTTPResponse) (fuel : Nat) :
    List Event :=
  if successIters resps fuel = fuel then [] else failBlock host res

/-- Substring containment on strings. -/
def containsStr (hay needle : String) : Prop :=
  ∃ l r, hay = l ++ needle ++ r

/-- Unfolding: with no fuel left the loop is still running (no guard
check performed). -/
theorem loopFuel_zero (host res : String) (resps : Nat → HTTPResponse)
    (iter count : Nat) :
    loopFuel host res resps 0 iter count = .running [] [] := rfl

/-- Unfolding: a false guard ends the loop with success.  (Unreachable
from the script's start, where `count` stays 0.) -/
theorem loopFuel_guard_false (host res : String) (resps : Nat → HTTPResponse)
    (fuel iter count : Nat) (h : ¬ count < 180) :
    loopFuel host res resps (fuel + 1) iter count =
      .finished { trace := [], counters := [count], exit := .success } := by
  simp [loopFuel, h]

/-- Unfolding: a pass whose response is non-200 opens, sends, and exits
fatally. -/
theorem loopFuel_fail (host res : String) (resps : Nat → HTTPResponse)
    (fuel iter count : Nat) (h : count < 180)
    (hf : (resps iter).status ≠ 200) :
    loopFuel host res resps (fuel + 1) iter count =
      .finished { trace := failBlock host res, counters := [count],
                  exit := .failure (heartbeatErrMsg (resps iter)) } := by
  simp [loopFuel, h, hf, failBlock]

/-- Unfolding: a pass whose response is 200 performs a full success block
and continues with the same `count` and the next oracle index. -/
theorem loopFuel_ok (host res : String) (resps : Nat → HTTPResponse)
    (fuel iter count : Nat) (h : count < 180)
    (hs : (resps iter).status = 200) :
    loopFuel host res resps (fuel + 1) iter count =
      consIter host res count (loopFuel host res resps fuel (iter + 1) count) := by
  simp [loopFuel, h, hs]

/-- The trace of a prepended iteration is the success block followed by
the rest. -/
theorem outcomeTrace_consIter (host res : String) (count : Nat)
    (o : LoopOutcome) :
    outcomeTrace (consIter host res count o) =
      successBlock host res ++ outcomeTrace o := by
  cases o <;> rfl

/-- The counters of a prepended iteration are `count` followed by the
rest. -/
theorem outcomeCounters_consIter (host res : String) (count : Nat)
    (o : LoopOutcome) :
    outcomeCounters (consIter host res count o) =
      count :: outcomeCounters o := by
  cases o <;> rfl

/-- When every response seen within the fuel is 200, the loop performs
`fuel` full success blocks, is still running afterwards, and every guard
check observed the unchanged `count`. -/
theorem loopFuel_all_ok (host res : String) (resps : Nat → HTTPResponse) :
    ∀ fuel iter count, count < 180 →
    (∀ i, iter ≤ i → i < iter + fuel → (resps i).status = 200) →
    loopFuel host res resps fuel iter count =
      .running ((List.replicate fuel (successBlock host res)).flatten)
        (List.replicate fuel count) := by
  intro fuel
  induction fuel with
  | zero => intro iter count _ _; rfl
  | succ m ih =>
    intro iter count hc hok
    rw [loopFuel_ok host res resps m iter count hc (hok iter le_rfl (by omega)),
        ih (iter + 1) count hc (fun i hi hi' => hok i (by omega) (by omega))]
    simp [consIter, List.replicate_succ, successBlock]

/-- When the first non-200 response within the fuel arrives at oracle
index `k`, the loop performs `k - iter` full success blocks, then the
open and send of the failing iteration, and exits with the diagnostic
built from the failing response.  Every guard check observed the
unchanged `count`. -/
theorem loopFuel_fail_at (host res : String) (resps : Nat → HTTPResponse) :
    ∀ fuel iter k count, count < 180 → iter ≤ k → k < iter + fuel →
    (∀ i, iter ≤ i → i < k → (resps i).status = 200) →
    (resps k).status ≠ 200 →
    loopFuel host res resps fuel iter count =
      .finished { trace := (List.replicate (k - iter) (successBlock host res)).flatten
                    ++ failBlock host res,
                  counters := List.replicate (k - iter + 1) count,
                  exit := .failure (heartbeatErrMsg (resps k)) } := by
  intro fuel
  induction fuel with
  | zero => intro iter k count _ h1 h2 _ _; omega
  | succ m ih =>
    intro iter k count hc h1 h2 hok hfail
    by_cases hik : iter = k
    · subst hik
      rw [loopFuel_fail host res resps m iter count hc hfail]
      simp [Nat.sub_self]
    · rw [loopFuel_ok host res resps m iter count hc (hok iter le_rfl (by omega)),
          ih (iter + 1) k count hc (by omega) (by omega)
            (fun i hi hi' => hok i (by omega) hi') hfail]
      have hki : k - iter = (k - (iter + 1)) + 1 := by omega
      rw [hki]
      simp [consIter, List.replicate_succ, successBlock]

/-- Counting over a flattened replication: `n` copies of `l` contain
`n * countP p l` matching elements. -/
theorem countP_flatten_replicate {α : Type} (p : α → Bool) (l : List α) :
    ∀ n, ((List.replicate n l).flatten).countP p = n * l.countP p := by
  intro n
  induction n with
  | zero => simp
  | succ m ih =>
    rw [List.replicate_succ]
    simp only [List.flatten_cons, List.countP_append, ih, Nat.succ_mul]
    omega

/-- A success block contains exactly one send, one open, one close, and
one sleep. -/
theorem successBlock_counts (host res : String) :
    (successBlock host res).countP isRequestEv = 1 ∧
    (successBlock host res).countP isOpenEv = 1 ∧
    (successBlock host res).countP isCloseEv = 1 ∧
    (successBlock host res).countP isSleepEv = 1 := by
  simp [successBlock, List.countP_cons, isRequestEv, isOpenEv, isCloseEv, isSleepEv]

/-- A fail block contains one send and one open, but no close and no
sleep. -/
theorem failBlock_counts (host res : String) :
    (failBlock host res).countP isRequestEv = 1 ∧
    (failBlock host res).countP isOpenEv = 1 ∧
    (failBlock host res).countP isCloseEv = 0 ∧
    (failBlock host res).countP isSleepEv = 0 := by
  simp [failBlock, List.countP_cons, isRequestEv, isOpenEv, isCloseEv, isSleepEv]

/-- Every event the loop can emit is a connection open to `host`, a POST
to `requestPath res`, a close, or a 60-second sleep — whether or not the
loop has finished. -/
theorem loopFuel_trace_events (host res : String) (resps : Nat → HTTPResponse) :
    ∀ fuel iter count,
    ∀ e ∈ outcomeTrace (loopFuel host res resps fuel iter count),
      e = Event.openConn host ∨ e = Event.request "POST" (requestPath res) ∨
      e = Event.close ∨ e = Event.sleep 60 := by
  intro fuel
  induction fuel with
  | zero =>
    intro iter count e he
    simp [loopFuel_zero, outcomeTrace] at he
  | succ m ih =>
    intro iter count e he
    by_cases hc : count < 180
    · by_cases hf : (resps iter).status ≠ 200
      · rw [loopFuel_fail host res resps m iter count hc hf] at he
        simp only [outcomeTrace, failBlock, List.mem_cons, List.not_mem_nil,
          or_false] at he
        tauto
      · rw [loopFuel_ok host res resps m iter count hc (not_not.mp hf)] at he
        rw [outcomeTrace_consIter] at he
        rcases List.mem_append.mp he with h | h
        · simp only [successBlock, List.mem_cons, List.not_mem_nil, or_false] at h
          tauto
        · exact ih (iter + 1) count e h
    · rw [loopFuel_guard_false host res resps m iter count hc] at he
      simp [outcomeTrace] at he

/-- Every guard check of the loop observes exactly the `count` it was
started with: the counter is never changed. -/
theorem loopFuel_counters_const (host res : String) (resps : Nat → HTTPResponse) :
    ∀ fuel iter count,
    ∀ x ∈ outcomeCounters (loopFuel host res resps fuel iter count),
      x = count := by
  intro fuel
  induction fuel with
  | zero =>
    intro iter count x hx
    simp [loopFuel_zero, outcomeCounters] at hx
  | succ m ih =>
    intro iter count x hx
    by_cases hc : count < 180
    · by_cases hf : (resps iter).status ≠ 200
      · rw [loopFuel_fail host res resps m iter count hc hf] at hx
        simp only [outcomeCounters, List.mem_cons, List.not_mem_nil,
          or_false] at hx
        exact hx
      · rw [loopFuel_ok host res resps m iter count hc (not_not.mp hf)] at hx
        rw [outcomeCounters_consIter] at hx
        rcases List.mem_cons.mp hx with h | h
        · exact h
        · exact ih (iter + 1) count x h
    · rw [loopFuel_guard_false host res resps m iter count hc] at hx
      simp only [outcomeCounters, List.mem_cons, List.not_mem_nil,
        or_false] at hx
      exact hx

/-- A `takeWhile` over `range'` keeps everything when the predicate holds
throughout. -/
theorem takeWhile_range'_all (p : Nat → Bool) :
    ∀ n s, (∀ i, s ≤ i → i < s + n → p i = true) →
      (List.range' s n).takeWhile p = List.range' s n := by
  intro n
  induction n with
  | zero => intro s _; simp
  | succ m ih =>
    intro s hall
    rw [List.range'_succ, List.takeWhile_cons, hall s le_rfl (by omega),
        ih (s + 1) (fun i hi hi' => hall i (by omega) (by omega))]
    simp

/-- A `takeWhile` over `range'` stops exactly at the first index where the
predicate fails. -/
theorem takeWhile_range'_stop (p : Nat → Bool) :
    ∀ n s k, s ≤ k → k < s + n → (∀ i, s ≤ i → i < k → p i = true) →
      p k = false →
      ((List.range' s n).takeWhile p).length = k - s := by
  intro n
  induction n with
  | zero => intro s k h1 h2 _ _; omega
  | succ m ih =>
    intro s k h1 h2 hok hfail
    rw [List.range'_succ, List.takeWhile_cons]
    by_cases hsk : s = k
    · subst hsk
      simp [hfail]
    · rw [if_pos (hok s le_rfl (by omega))]
      simp only [List.length_cons,
        ih (s + 1) k (by omega) (by omega) (fun i hi hi' => hok i (by omega) hi') hfail]
      omega

/-- When every response within the fuel is 200, all the unrolled
iterations succeed. -/
theorem successIters_all_ok (resps : Nat → HTTPResponse) (fuel : Nat)
    (hok : ∀ i, i < fuel → (resps i).status = 200) :
    successIters resps fuel = fuel := by
  unfold successIters
  rw [List.range_eq_range', takeWhile_range'_all _ fuel 0
    (fun i _ hi => by simp [hok i (by omega)])]
  simp [List.length_range']

/-- When `k` is the first failing index within the fuel, exactly `k`
iterations succeed. -/
theorem successIters_fail_at (resps : Nat → HTTPResponse) (fuel k : Nat)
    (hk : k < fuel) (hok : ∀ i, i < k → (resps i).status = 200)
    (hfail : (resps k).status ≠ 200) :
    successIters resps fuel = k := by
  unfold successIters
  rw [List.range_eq_range']
  have := takeWhile_range'_stop (fun i => (resps i).status == 200) fuel 0 k
    (by omega) (by omega) (fun i _ hi => by simp [hok i hi]) (by simp [hfail])
  simpa using this

/-- Any oracle that ever fails within the first `n` sends has a first
failing index. -/
theorem exists_first_fail (resps : Nat → HTTPResponse) (n : Nat)
    (hex : ∃ i, i < n ∧ (resps i).status ≠ 200) :
    ∃ k, k < n ∧ (∀ i, i < k → (resps i).status = 200) ∧
      (resps k).status ≠ 200 := by
  refine ⟨Nat.find hex, (Nat.find_spec hex).1, ?_, (Nat.find_spec hex).2⟩
  intro i hi
  by_contra hne
  have hn := (Nat.find_spec hex).1
  exact Nat.find_min hex hi ⟨by omega, hne⟩

/-- The fatal diagnostic contains the status code, the reason phrase, and
the raw response representation as substrings. -/
theorem heartbeatErrMsg_contains (resp : HTTPResponse) :
    containsStr (heartbeatErrMsg resp) (toString resp.status) ∧
    containsStr (heartbeatErrMsg resp) resp.reason ∧
    containsStr (heartbeatErrMsg resp) resp.reprStr := by
  refine ⟨⟨"boskos: heartbeat_account: Got invalid response while sending heartbeat: ",
      ": " ++ resp.reason ++ ", " ++ resp.reprStr, ?_⟩,
    ⟨"boskos: heartbeat_account: Got invalid response while sending heartbeat: "
        ++ toString resp.status ++ ": ", ", " ++ resp.reprStr, ?_⟩,
    ⟨"boskos: heartbeat_account: Got invalid response while sending heartbeat: "
        ++ toString resp.status ++ ": " ++ resp.reason ++ ", ", "", ?_⟩⟩ <;>
  · apply String.ext
    simp [heartbeatErrMsg, String.data_append, List.append_assoc]

/-- With the required resource name present, the process is exactly the
loop started at `iter = 0`, `count = 0`, against the resolved host. -/
theorem program_run (env : String → Option String) (resps : Nat → HTTPResponse)
    (res : String) (fuel : Nat)
    (hres : env "BOSKOS_RESOURCE_NAME" = some res) :
    program env resps fuel = .run (loopFuel (BOSKOS_HOST env) res resps fuel 0 0) := by
  simp [program, hres]

/-- The tail after the last complete successful iteration holds no close
and no sleep, and as many opens as sends. -/
theorem failTail_counts (host res : String) (resps : Nat → HTTPResponse)
    (fuel : Nat) :
    (failTail host res resps fuel).countP isSleepEv = 0 ∧
    (failTail host res resps fuel).countP isCloseEv = 0 ∧
    (failTail host res resps fuel).countP isOpenEv =
      (failTail host res resps fuel).countP isRequestEv := by
  unfold failTail
  by_cases h : successIters resps fuel = fuel <;>
    simp [h, failBlock, List.countP_cons, isSleepEv, isCloseEv, isOpenEv, isRequestEv]

/-- Central decomposition: the events of a run with `fuel` unrolled passes
are `successIters resps fuel` copies of the success block followed by the
fail tail. -/
theorem loopFuel_trace_decomp (host res : String) (resps : Nat → HTTPResponse)
    (fuel : Nat) :
    outcomeTrace (loopFuel host res resps fuel 0 0) =
      (List.replicate (successIters resps fuel) (successBlock host res)).flatten
        ++ failTail host res resps fuel := by
  by_cases hall : ∀ i, i < fuel → (resps i).status = 200
  · have hsi := successIters_all_ok resps fuel hall
    have htail : failTail host res resps fuel = [] := by
      unfold failTail
      rw [if_pos hsi]
    rw [loopFuel_all_ok host res resps fuel 0 0 (by omega)
        (fun i _ hi => hall i (by omega)), htail, hsi]
    simp [outcomeTrace]
  · push_neg at hall
    obtain ⟨k, hkf, hok, hfail⟩ := exists_first_fail resps fuel hall
    have hsi := successIters_fail_at resps fuel k hkf hok hfail
    have htail : failTail host res resps fuel = failBlock host res := by
      unfold failTail
      rw [if_neg (by omega)]
    rw [loopFuel_fail_at host res resps fuel 0 k 0 (by omega) (by omega) (by omega)
        (fun i _ hi => hok i hi) hfail, htail, hsi]
    simp [outcomeTrace]

/-- C1 (refuting the claim on this code): when every send receives a 200
response the loop NEVER terminates — after any number `fuel` of passes it
is still running, has no exit status, and has performed exactly `fuel`
send attempts (so the send count grows without bound instead of stopping
at 180 with a success exit).  The script never increments `count`, so the
guard `count < 180` holds forever. -/
theorem C1_all_ok_loop_never_terminates (env : String → Option String)
    (resps : Nat → HTTPResponse) (res : String)
    (hres : env "BOSKOS_RESOURCE_NAME" = some res)
    (hok : ∀ i, (resps i).status = 200) (fuel : Nat) :
    program env resps fuel =
      .run (.running
        ((List.replicate fuel (successBlock (BOSKOS_HOST env) res)).flatten)
        (List.replicate fuel 0)) ∧
    progExit (program env resps fuel) = none ∧
    progSends (program env resps fuel) = fuel := by
  rw [program_run env resps res fuel hres,
      loopFuel_all_ok (BOSKOS_HOST env) res resps fuel 0 0 (by omega)
        (fun i _ _ => hok i)]
  refine ⟨rfl, rfl, ?_⟩
  simp only [progSends, progTrace, outcomeTrace, countSends]
  rw [countP_flatten_replicate, (successBlock_counts (BOSKOS_HOST env) res).1,
      Nat.mul_one]

/-- Environment for concrete runs: only the required resource name is
set. -/
def wEnvRes : String → Option String :=
  fun s => if s = "BOSKOS_RESOURCE_NAME" then some "capg-project" else none

/-- Oracle answering every send with a 200 response. -/
def wRespsOk : Nat → HTTPResponse :=
  fun _ => { status := 200, reason := "OK", reprStr := "<HTTPResponse 200>" }

/-- Oracle answering every send with a 503 response (so the very first
send fails). -/
def wRespsBad : Nat → HTTPResponse :=
  fun _ => { status := 503, reason := "Service Unavailable",
             reprStr := "<HTTPResponse 503>" }

/-- Concrete instance of the C1 theorem at 181 unrolled passes: the run
has already performed 181 sends — more than the 180 the specification
allows — and is still going with no exit status. -/
theorem C1_witness :
    program wEnvRes wRespsOk 181 =
      .run (.running
        ((List.replicate 181 (successBlock (BOSKOS_HOST wEnvRes) "capg-project")).flatten)
        (List.replicate 181 0)) ∧
    progExit (program wEnvRes wRespsOk 181) = none ∧
    progSends (program wEnvRes wRespsOk 181) = 181 :=
  C1_all_ok_loop_never_terminates wEnvRes wRespsOk "capg-project"
    (by simp [wEnvRes]) (fun i => rfl) 181

/-- C2 (refuting the claim on this code): the loop counter is never
incremented — every guard check of any run observes exactly 0, and in
particular the counter never reaches the maximum 180. -/
theorem C2_counter_never_incremented (env : String → Option String)
    (resps : Nat → HTTPResponse) (res : String)
    (hres : env "BOSKOS_RESOURCE_NAME" = some res) (fuel : Nat) :
    (∀ x ∈ progCounters (program env resps fuel), x = 0) ∧
    180 ∉ progCounters (program env resps fuel) := by
  rw [program_run env resps res fuel hres]
  simp only [progCounters]
  constructor
  · exact fun x hx =>
      loopFuel_counters_const (BOSKOS_HOST env) res resps fuel 0 0 x hx
  · intro hmem
    have h0 :=
      loopFuel_counters_const (BOSKOS_HOST env) res resps fuel 0 0 180 hmem
    omega

/-- Concrete instance of the C2 theorem at 181 unrolled passes. -/
theorem C2_witness :
    (∀ x ∈ progCounters (program wEnvRes wRespsOk 181), x = 0) ∧
    180 ∉ progCounters (program wEnvRes wRespsOk 181) :=
  C2_counter_never_incremented wEnvRes wRespsOk "capg-project"
    (by simp [wEnvRes]) 181

/-- C3: if the k-th send (1-based, k ≤ 180) is the first to get a non-200
status, then once the run has had at least k passes of fuel the process
has terminated: exactly k send attempts happened, the trace ends right
after that send (no further sends), and the exit is a failure carrying a
diagnostic that contains the status code, the reason phrase, and the raw
response representation. -/
theorem C3_first_nonok_exits_after_k_sends (env : String → Option String)
    (resps : Nat → HTTPResponse) (res : String) (k fuel : Nat)
    (hres : env "BOSKOS_RESOURCE_NAME" = some res)
    (hk1 : 1 ≤ k) (hk2 : k ≤ 180) (hfuel : k ≤ fuel)
    (hok : ∀ i, i + 1 < k → (resps i).status = 200)
    (hfail : (resps (k - 1)).status ≠ 200) :
    progSends (program env resps fuel) = k ∧
    progTrace (program env resps fuel) =
      (List.replicate (k - 1) (successBlock (BOSKOS_HOST env) res)).flatten
        ++ failBlock (BOSKOS_HOST env) res ∧
    progExit (program env resps fuel) =
      some (ExitStat.failure (heartbeatErrMsg (resps (k - 1)))) ∧
    containsStr (heartbeatErrMsg (resps (k - 1)))
      (toString (resps (k - 1)).status) ∧
    containsStr (heartbeatErrMsg (resps (k - 1))) (resps (k - 1)).reason ∧
    containsStr (heartbeatErrMsg (resps (k - 1))) (resps (k - 1)).reprStr := by
  rw [program_run env resps res fuel hres,
      loopFuel_fail_at (BOSKOS_HOST env) res resps fuel 0 (k - 1) 0 (by omega)
        (by omega) (by omega) (fun i _ hi => hok i (by omega)) hfail]
  refine ⟨?_, ?_, rfl, heartbeatErrMsg_contains (resps (k - 1))⟩
  · simp only [progSends, progTrace, outcomeTrace, countSends,
      List.countP_append, Nat.sub_zero]
    rw [countP_flatten_replicate, (successBlock_counts (BOSKOS_HOST env) res).1,
        (failBlock_counts (BOSKOS_HOST env) res).1]
    omega
  · simp only [progTrace, outcomeTrace, Nat.sub_zero]

/-- Concrete instance of the C3 theorem with the very first send
failing. -/
theorem C3_witness :
    progSends (program wEnvRes wRespsBad 1) = 1 ∧
    progTrace (program wEnvRes wRespsBad 1) =
      (List.replicate 0 (successBlock (BOSKOS_HOST wEnvRes) "capg-project")).flatten
        ++ failBlock (BOSKOS_HOST wEnvRes) "capg-project" ∧
    progExit (program wEnvRes wRespsBad 1) =
      some (ExitStat.failure (heartbeatErrMsg (wRespsBad 0))) ∧
    containsStr (heartbeatErrMsg (wRespsBad 0)) (toString (wRespsBad 0).status) ∧
    containsStr (heartbeatErrMsg (wRespsBad 0)) (wRespsBad 0).reason ∧
    containsStr (heartbeatErrMsg (wRespsBad 0)) (wRespsBad 0).reprStr :=
  C3_first_nonok_exits_after_k_sends wEnvRes wRespsBad "capg-project" 1 1
    (by simp [wEnvRes]) le_rfl (by omega) le_rfl
    (fun i hi => absurd hi (by omega)) (by simp [wRespsBad])

/-- C4: every send event is an HTTP POST to `/update` whose URL-encoded
query string is built from exactly the three parameters `name`, `state`,
`owner`, with `state` always `"busy"`. -/
theorem C4_post_update_three_params (env : String → Option String)
    (resps : Nat → HTTPResponse) (res : String) (fuel : Nat)
    (hres : env "BOSKOS_RESOURCE_NAME" = some res) :
    (∀ e ∈ progTrace (program env resps fuel), isRequestEv e = true →
      e = Event.request "POST" (requestPath res)) ∧
    requestPath res = "/update?" ++ urlencode (heartbeatParams res) ∧
    (heartbeatParams res).map Prod.fst = ["name", "state", "owner"] ∧
    (heartbeatParams res).lookup "state" = some "busy" := by
  refine ⟨?_, rfl, rfl, by simp [heartbeatParams, List.lookup]⟩
  intro e he hreq
  rw [program_run env resps res fuel hres] at he
  simp only [progTrace] at he
  rcases loopFuel_trace_events (BOSKOS_HOST env) res resps fuel 0 0 e he with
    h | h | h | h <;> subst h <;> first | rfl | simp [isRequestEv] at hreq

/-- Concrete instance of the C4 theorem. -/
theorem C4_witness :
    (∀ e ∈ progTrace (program wEnvRes wRespsOk 3), isRequestEv e = true →
      e = Event.request "POST" (requestPath "capg-project")) ∧
    requestPath "capg-project" =
      "/update?" ++ urlencode (heartbeatParams "capg-project") ∧
    (heartbeatParams "capg-project").map Prod.fst = ["name", "state", "owner"] ∧
    (heartbeatParams "capg-project").lookup "state" = some "busy" :=
  C4_post_update_three_params wEnvRes wRespsOk "capg-project" 3
    (by simp [wEnvRes])

/-- C5: when the required resource-name environment variable is absent the
process fails at startup and no send is ever attempted, whatever fuel the
loop would have had. -/
theorem C5_missing_resource_name_no_send (env : String → Option String)
    (resps : Nat → HTTPResponse) (fuel : Nat)
    (hnone : env "BOSKOS_RESOURCE_NAME" = none) :
    program env resps fuel = ProgResult.startupError ∧
    progSends (program env resps fuel) = 0 ∧
    progTrace (program env resps fuel) = [] := by
  simp [program, hnone, progSends, progTrace, countSends]

/-- Environment with no variables set at all. -/
def wEnvEmpty : String → Option String := fun _ => none

/-- Concrete instance of the C5 theorem. -/
theorem C5_witness :
    program wEnvEmpty wRespsOk 5 = ProgResult.startupError ∧
    progSends (program wEnvEmpty wRespsOk 5) = 0 ∧
    progTrace (program wEnvEmpty wRespsOk 5) = [] :=
  C5_missing_resource_name_no_send wEnvEmpty wRespsOk 5 rfl

/-- C6: every connection of the run goes to the default host `"boskos"`
when `BOSKOS_HOST` is unset, and to the explicitly configured host when it
is set. -/
theorem C6_host_default_or_override (env : String → Option String)
    (resps : Nat → HTTPResponse) (res : String) (fuel : Nat)
    (hres : env "BOSKOS_RESOURCE_NAME" = some res) :
    (env "BOSKOS_HOST" = none →
      ∀ e ∈ progTrace (program env resps fuel), isOpenEv e = true →
        e = Event.openConn "boskos") ∧
    (∀ hostv, env "BOSKOS_HOST" = some hostv →
      ∀ e ∈ progTrace (program env resps fuel), isOpenEv e = true →
        e = Event.openConn hostv) := by
  constructor
  · intro hnone e he hopen
    rw [program_run env resps res fuel hres] at he
    simp only [progTrace] at he
    rcases loopFuel_trace_events (BOSKOS_HOST env) res resps fuel 0 0 e he with
      h | h | h | h
    · subst h; simp [BOSKOS_HOST, hnone]
    · subst h; exact absurd hopen (by simp [isOpenEv])
    · subst h; exact absurd hopen (by simp [isOpenEv])
    · subst h; exact absurd hopen (by simp [isOpenEv])
  · intro hostv hsome e he hopen
    rw [program_run env resps res fuel hres] at he
    simp only [progTrace] at he
    rcases loopFuel_trace_events (BOSKOS_HOST env) res resps fuel 0 0 e he with
      h | h | h | h
    · subst h; simp [BOSKOS_HOST, hsome]
    · subst h; exact absurd hopen (by simp [isOpenEv])
    · subst h; exact absurd hopen (by simp [isOpenEv])
    · subst h; exact absurd hopen (by simp [isOpenEv])

/-- Environment setting both the host and the resource name. -/
def wEnvHost : String → Option String :=
  fun s =>
    if s = "BOSKOS_RESOURCE_NAME" then some "capg-project"
    else if s = "BOSKOS_HOST" then some "boskos.test-pods.svc" else none

/-- Concrete instance of the C6 theorem, with an explicit host set. -/
theorem C6_witness :
    (wEnvHost "BOSKOS_HOST" = none →
      ∀ e ∈ progTrace (program wEnvHost wRespsOk 3), isOpenEv e = true →
        e = Event.openConn "boskos") ∧
    (∀ hostv, wEnvHost "BOSKOS_HOST" = some hostv →
      ∀ e ∈ progTrace (program wEnvHost wRespsOk 3), isOpenEv e = true →
        e = Event.openConn hostv) :=
  C6_host_default_or_override wEnvHost wRespsOk "capg-project" 3
    (by simp [wEnvHost])

/-- C7: each successful send is followed, within its iteration, by the
close and a sleep of exactly 60 seconds before the next pass; every sleep
of the run is exactly 60 seconds, and there is one sleep per successful
iteration. -/
theorem C7_sleep_60_after_each_success (env : String → Option String)
    (resps : Nat → HTTPResponse) (res : String) (fuel : Nat)
    (hres : env "BOSKOS_RESOURCE_NAME" = some res) :
    progTrace (program env resps fuel) =
      (List.replicate (successIters resps fuel)
        (successBlock (BOSKOS_HOST env) res)).flatten
        ++ failTail (BOSKOS_HOST env) res resps fuel ∧
    successBlock (BOSKOS_HOST env) res =
      [Event.openConn (BOSKOS_HOST env), Event.request "POST" (requestPath res),
       Event.close, Event.sleep 60] ∧
    (∀ e ∈ progTrace (program env resps fuel), isSleepEv e = true →
      e = Event.sleep 60) ∧
    countSleeps (progTrace (program env resps fuel)) = successIters resps fuel := by
  rw [program_run env resps res fuel hres]
  simp only [progTrace]
  refine ⟨loopFuel_trace_decomp (BOSKOS_HOST env) res resps fuel, rfl, ?_, ?_⟩
  · intro e he hsleep
    rcases loopFuel_trace_events (BOSKOS_HOST env) res resps fuel 0 0 e he with
      h | h | h | h
    · subst h; exact absurd hsleep (by simp [isSleepEv])
    · subst h; exact absurd hsleep (by simp [isSleepEv])
    · subst h; exact absurd hsleep (by simp [isSleepEv])
    · subst h; rfl
  · rw [loopFuel_trace_decomp (BOSKOS_HOST env) res resps fuel]
    simp only [countSleeps, List.countP_append]
    rw [countP_flatten_replicate,
        (successBlock_counts (BOSKOS_HOST env) res).2.2.2,
        (failTail_counts (BOSKOS_HOST env) res resps fuel).1]
    omega

/-- Concrete instance of the C7 theorem. -/
theorem C7_witness :
    progTrace (program wEnvRes wRespsOk 3) =
      (List.replicate (successIters wRespsOk 3)
        (successBlock (BOSKOS_HOST wEnvRes) "capg-project")).flatten
        ++ failTail (BOSKOS_HOST wEnvRes) "capg-project" wRespsOk 3 ∧
    successBlock (BOSKOS_HOST wEnvRes) "capg-project" =
      [Event.openConn (BOSKOS_HOST wEnvRes),
       Event.request "POST" (requestPath "capg-project"),
       Event.close, Event.sleep 60] ∧
    (∀ e ∈ progTrace (program wEnvRes wRespsOk 3), isSleepEv e = true →
      e = Event.sleep 60) ∧
    countSleeps (progTrace (program wEnvRes wRespsOk 3)) =
      successIters wRespsOk 3 :=
  C7_sleep_60_after_each_success wEnvRes wRespsOk "capg-project" 3
    (by simp [wEnvRes])

/-- C8: each loop iteration opens its own fresh connection (one open per
send attempt over the whole run), and on the success path the close comes
before the sleep, inside the same iteration block. -/
theorem C8_fresh_connection_each_iteration (env : String → Option String)
    (resps : Nat → HTTPResponse) (res : String) (fuel : Nat)
    (hres : env "BOSKOS_RESOURCE_NAME" = some res) :
    countOpens (progTrace (program env resps fuel)) =
      countSends (progTrace (program env resps fuel)) ∧
    progTrace (program env resps fuel) =
      (List.replicate (successIters resps fuel)
        (successBlock (BOSKOS_HOST env) res)).flatten
        ++ failTail (BOSKOS_HOST env) res resps fuel ∧
    successBlock (BOSKOS_HOST env) res =
      [Event.openConn (BOSKOS_HOST env), Event.request "POST" (requestPath res),
       Event.close, Event.sleep 60] := by
  rw [program_run env resps res fuel hres]
  simp only [progTrace]
  refine ⟨?_, loopFuel_trace_decomp (BOSKOS_HOST env) res resps fuel, rfl⟩
  rw [loopFuel_trace_decomp (BOSKOS_HOST env) res resps fuel]
  simp only [countOpens, countSends, List.countP_append]
  rw [countP_flatten_replicate, countP_flatten_replicate,
      (successBlock_counts (BOSKOS_HOST env) res).2.1,
      (successBlock_counts (BOSKOS_HOST env) res).1,
      (failTail_counts (BOSKOS_HOST env) res resps fuel).2.2]

/-- Concrete instance of the C8 theorem. -/
theorem C8_witness :
    countOpens (progTrace (program wEnvRes wRespsOk 3)) =
      countSends (progTrace (program wEnvRes wRespsOk 3)) ∧
    progTrace (program wEnvRes wRespsOk 3) =
      (List.replicate (successIters wRespsOk 3)
        (successBlock (BOSKOS_HOST wEnvRes) "capg-project")).flatten
        ++ failTail (BOSKOS_HOST wEnvRes) "capg-project" wRespsOk 3 ∧
    successBlock (BOSKOS_HOST wEnvRes) "capg-project" =
      [Event.openConn (BOSKOS_HOST wEnvRes),
       Event.request "POST" (requestPath "capg-project"),
       Event.close, Event.sleep 60] :=
  C8_fresh_connection_each_iteration wEnvRes wRespsOk "capg-project" 3
    (by simp [wEnvRes])

/-- C9: the owner sent with every heartbeat is the compiled-in constant
string `"cluster-api-provider-gcp"`; it is the same in every send and does
not depend on the environment. -/
theorem C9_owner_is_compiled_in_constant (env : String → Option String)
    (resps : Nat → HTTPResponse) (res : String) (fuel : Nat)
    (hres : env "BOSKOS_RESOURCE_NAME" = some res) :
    USER = "cluster-api-provider-gcp" ∧
    (heartbeatParams res).lookup "owner" = some "cluster-api-provider-gcp" ∧
    (∀ e ∈ progTrace (program env resps fuel), isRequestEv e = true →
      e = Event.request "POST" (requestPath res)) ∧
    requestPath res =
      "/update?" ++ urlencode [("name", res), ("state", "busy"), ("owner", USER)] := by
  refine ⟨rfl, by simp [heartbeatParams, List.lookup, USER], ?_, rfl⟩
  intro e he hreq
  rw [program_run env resps res fuel hres] at he
  simp only [progTrace] at he
  rcases loopFuel_trace_events (BOSKOS_HOST env) res resps fuel 0 0 e he with
    h | h | h | h <;> subst h <;> first | rfl | simp [isRequestEv] at hreq

/-- Concrete instance of the C9 theorem. -/
theorem C9_witness :
    USER = "cluster-api-provider-gcp" ∧
    (heartbeatParams "capg-project").lookup "owner" =
      some "cluster-api-provider-gcp" ∧
    (∀ e ∈ progTrace (program wEnvHost wRespsOk 3), isRequestEv e = true →
      e = Event.request "POST" (requestPath "capg-project")) ∧
    requestPath "capg-project" =
      "/update?" ++ urlencode
        [("name", "capg-project"), ("state", "busy"), ("owner", USER)] :=
  C9_owner_is_compiled_in_constant wEnvHost wRespsOk "capg-project" 3
    (by simp [wEnvHost])

/-- C10: when the k-th send (1-based) is the first to fail and the run has
had at least k passes of fuel, the run contains one close per successful
iteration (k - 1 of them, one fewer than the k sends), and the trace ends
with the failing send itself: the failing iteration's connection is never
closed. -/
theorem C10_failing_connection_never_closed (env : String → Option String)
    (resps : Nat → HTTPResponse) (res : String) (k fuel : Nat)
    (hres : env "BOSKOS_RESOURCE_NAME" = some res)
    (hk1 : 1 ≤ k) (hk2 : k ≤ 180) (hfuel : k ≤ fuel)
    (hok : ∀ i, i + 1 < k → (resps i).status = 200)
    (hfail : (resps (k - 1)).status ≠ 200) :
    countCloses (progTrace (program env resps fuel)) = k - 1 ∧
    countSends (progTrace (program env resps fuel)) = k ∧
    (progTrace (program env resps fuel)).getLast? =
      some (Event.request "POST" (requestPath res)) := by
  rw [program_run env resps res fuel hres,
      loopFuel_fail_at (BOSKOS_HOST env) res resps fuel 0 (k - 1) 0 (by omega)
        (by omega) (by omega) (fun i _ hi => hok i (by omega)) hfail]
  simp only [progTrace, outcomeTrace, Nat.sub_zero]
  refine ⟨?_, ?_, ?_⟩
  · simp only [countCloses, List.countP_append]
    rw [countP_flatten_replicate,
        (successBlock_counts (BOSKOS_HOST env) res).2.2.1,
        (failBlock_counts (BOSKOS_HOST env) res).2.2.1]
    omega
  · simp only [countSends, List.countP_append]
    rw [countP_flatten_replicate, (successBlock_counts (BOSKOS_HOST env) res).1,
        (failBlock_counts (BOSKOS_HOST env) res).1]
    omega
  · rw [List.getLast?_append]
    simp [failBlock]

/-- Concrete instance of the C10 theorem with the very first send
failing. -/
theorem C10_witness :
    countCloses (progTrace (program wEnvRes wRespsBad 1)) = 0 ∧
    countSends (progTrace (program wEnvRes wRespsBad 1)) = 1 ∧
    (progTrace (program wEnvRes wRespsBad 1)).getLast? =
      some (Event.request "POST" (requestPath "capg-project")) :=
  C10_failing_connection_never_closed wEnvRes wRespsBad "capg-project" 1 1
    (by simp [wEnvRes]) le_rfl (by omega) le_rfl
    (fun i hi => absurd hi (by omega)) (by simp [wRespsBad])
